import Mathlib

/-!
Verification of the event-context layer of the vk-bot framework
(`src/context.rs`): construction of a `Context` from a webhook event,
derivation of the addressing identifier, and the `send` method that
serializes the accumulated `Response` into remote-call parameters.

Pure Rust code is embedded as Lean functions.  Code that may panic
(Rust `expect`) is embedded with the `PanicOr` outcome type, which keeps
a panic (process abort) distinguishable from a returned error value.
External collaborators (the RPC client lock, `serde_json` keyboard
serialization, the random generator, and the remote `messages.send`
call) are supplied as explicit inputs in a `SendEnv`.
-/

namespace VkBot

/-- Modelled from the spec: the enumerated webhook event kinds (new
message, reply, edit, permission allow/deny, typing indicator).  The
`Event` enum itself lives outside the provided source file. -/
inductive Event
  | messageNew
  | messageReply
  | messageEdit
  | messageAllow
  | messageDeny
  | messageTypingState
deriving DecidableEq

/-- Modelled from the spec: the nested message record of an event
object.  Its sender id `from_id` is always present (the source accesses
it as a plain field), while its conversation id `peer_id` is optional
(the source unwraps it with `expect`). -/
structure Message where
  from_id : Int
  peer_id : Option Int
deriving DecidableEq

/-- Modelled from the spec: the event-specific payload.  It may carry
top-level `user_id`, `from_id` and `peer_id` fields or a nested message
record, depending on event kind and API version; the accessors used by
the source (`user_id()`, `message()`) are plain field reads. -/
structure Object where
  user_id : Option Int
  from_id : Option Int
  peer_id : Option Int
  message : Option Message
deriving DecidableEq

/-- Modelled from the spec: an attachment descriptor; the only
operation the source applies to it is `to_string`, yielding its compact
string form. -/
structure AttachmentInfo where
  form : String
deriving DecidableEq

/-- String form of an attachment descriptor (Rust `info.to_string()`). -/
def AttachmentInfo.to_string (a : AttachmentInfo) : String :=
  a.form

/-- Modelled from the spec: an opaque inline-keyboard descriptor; its
JSON serialization is performed by an external library. -/
structure Keyboard where
  id : Nat
deriving DecidableEq

/-- Modelled from the spec: the outgoing-response accumulator with
message text, ordered attachment list and optional keyboard. -/
structure Response where
  message : String
  attachments : List AttachmentInfo
  keyboard : Option Keyboard
deriving DecidableEq

/-- Modelled from the spec: a fresh empty response. -/
def Response.new : Response :=
  { message := "", attachments := [], keyboard := none }

/-- Modelled from the spec: a shared handle to the API client
(`Arc Mutex APIClient` in the source); only its identity matters at
this layer. -/
structure ApiHandle where
  id : Nat
deriving DecidableEq

/-- Modelled from the spec: the RPC client error type.  The source
wraps lock failures as `Error.Other` of the failure description; remote
failures arrive already shaped as some `Error` value. -/
inductive Error
  | Other (msg : String)
  | Remote (msg : String)
deriving DecidableEq

/-- Outcome of running code that may panic: a Rust `expect` failure
aborts with a message instead of returning a value. -/
inductive PanicOr (α : Type)
  | panic (msg : String)
  | ok (val : α)
deriving DecidableEq

/-- Rust `Option::expect`: the value, or a panic with the message. -/
def expectP : Option α → String → PanicOr α
  | some a, _ => .ok a
  | none, msg => .panic msg

/-- Map over a non-panicking outcome. -/
def PanicOr.map (f : α → β) : PanicOr α → PanicOr β
  | .panic msg => .panic msg
  | .ok a => .ok (f a)

/-- Sequence two possibly-panicking computations. -/
def PanicOr.bind : PanicOr α → (α → PanicOr β) → PanicOr β
  | .panic msg, _ => .panic msg
  | .ok a, f => f a

/-- The `Context` struct of `src/context.rs`. -/
structure Context where
  event : Event
  object : Object
  api : ApiHandle
  peer_id : Int
  response : Response
deriving DecidableEq

/-- `Context::new` from `src/context.rs`: derives `peer_id` by event
kind (`user_id` for `MessageAllow`, the nested message record's
`from_id` for `MessageTypingState`, the nested message record's
`peer_id` otherwise), panicking via `expect` when the field is absent. -/
def Context.new (event : Event) (object : Object) (api : ApiHandle) :
    PanicOr Context :=
  (match event with
   | Event.messageAllow =>
       expectP object.user_id "no user_id on message_allow object"
   | Event.messageTypingState =>
       (expectP object.message "no message on message_typing_state object").map
         (fun (m : Message) => m.from_id)
   | _ =>
       (expectP object.message "no message on object").bind
         (fun (m : Message) => expectP m.peer_id "no peer_id on object")
  ).map (fun peer_id =>
    { event := event, object := object, api := api, peer_id := peer_id,
      response := Response.new })

/-- The parameter map handed to the remote call (rvk `Params`,
a string-keyed map), as an association list. -/
def Params : Type :=
  List (String × String)

instance : DecidableEq Params :=
  inferInstanceAs (DecidableEq (List (String × String)))

/-- The empty parameter map. -/
def Params.empty : Params :=
  []

/-- Remove a key's binding. -/
def Params.erase : Params → String → Params
  | [], _ => []
  | (k2, v2) :: rest, k =>
      if k2 = k then Params.erase rest k else (k2, v2) :: Params.erase rest k

/-- Map insertion: replaces any previous binding of the key. -/
def Params.insert (p : Params) (k v : String) : Params :=
  (k, v) :: p.erase k

/-- Map lookup. -/
def Params.get? : Params → String → Option String
  | [], _ => none
  | (k2, v2) :: rest, k => if k2 = k then some v2 else Params.get? rest k

/-- External inputs of one `send` invocation: the result of taking the
client lock, the JSON serializer for keyboards (`serde_json`), the
freshly drawn random integer, and the remote `messages.send` call. -/
structure SendEnv where
  lockResult : Except String Unit
  serialize : Keyboard → Except String String
  randomId : Int
  remote : Params → Except Error String

/-- Result of `send`: `Ok(())`, a returned `Err`, or a panic (process
abort). -/
inductive SendResult
  | panic (msg : String)
  | err (e : Error)
  | ok
deriving DecidableEq

/-- The attachment-parameter value built by the source: the fold
`acc + "," + v` over the attachments' string forms, starting from the
empty string (`src/context.rs` lines 104-107). -/
def attachmentFold (attachments : List AttachmentInfo) : String :=
  (attachments.map AttachmentInfo.to_string).foldl
    (fun acc v => acc ++ "," ++ v) ""

/-- The parameter-building portion of `Context::send`
(`src/context.rs` lines 88-119): `peer_id` always; `message` when the
text is non-empty; `attachment` as the fold `acc + "," + v` over the
attachments' string forms when the list is non-empty; `keyboard` as its
JSON serialization when present, panicking via `expect` when
serialization fails; finally `random_id`. -/
def Context.buildParams (ctx : Context)
    (serialize : Keyboard → Except String String) (randomId : Int) :
    PanicOr Params :=
  let params := Params.empty
  let params := params.insert "peer_id" (toString ctx.peer_id)
  let msg := ctx.response.message
  let attachments := ctx.response.attachments
  let kbd := ctx.response.keyboard
  let params := if msg.isEmpty then params else params.insert "message" msg
  let params :=
    if attachments.isEmpty then params
    else params.insert "attachment" (attachmentFold attachments)
  match kbd with
  | some k =>
      match serialize k with
      | Except.ok s =>
          PanicOr.ok
            ((params.insert "keyboard" s).insert "random_id"
              (toString randomId))
      | Except.error _ => PanicOr.panic "failed to serialize keyboard"
  | none =>
      PanicOr.ok (params.insert "random_id" (toString randomId))

/-- `Context::send` from `src/context.rs`: take the lock (mapping a
lock failure to `Error.Other` of its description), build the
parameters, issue the remote call, and discard the success payload. -/
def Context.send (ctx : Context) (env : SendEnv) : SendResult :=
  match env.lockResult with
  | Except.error e => SendResult.err (Error.Other e)
  | Except.ok _ =>
      match ctx.buildParams env.serialize env.randomId with
      | PanicOr.panic msg => SendResult.panic msg
      | PanicOr.ok params =>
          match env.remote params with
          | Except.ok _ => SendResult.ok
          | Except.error e => SendResult.err e

/-- State-passing form of `send`.  The source method takes `&self` and
assigns no field, so the post-state carries every field of the context
(and of its response) through unchanged. -/
def Context.sendSt (ctx : Context) (env : SendEnv) : SendResult × Context :=
  (ctx.send env,
   { event := ctx.event, object := ctx.object, api := ctx.api,
     peer_id := ctx.peer_id,
     response :=
       { message := ctx.response.message,
         attachments := ctx.response.attachments,
         keyboard := ctx.response.keyboard } })

/-! Auxiliary decimal-representation definitions, used to reason about
the `toString` rendering of `peer_id` and `random_id` values. -/

/-- Decimal digit list of a natural number, most significant digit
first; agrees with the digit list produced by `Nat.repr`. -/
def decDigits (n : Nat) : List Char :=
  if h : n / 10 = 0 then [Nat.digitChar (n % 10)]
  else decDigits (n / 10) ++ [Nat.digitChar (n % 10)]
decreasing_by
  exact Nat.div_lt_self (by omega) (by decide)

/-- Numeric value of a decimal digit character. -/
def digitVal (c : Char) : Nat :=
  c.toNat - 48

/-- Decode a decimal digit string into an accumulator. -/
def decVal : List Char → Nat → Nat
  | [], a => a
  | c :: cs, a => decVal cs (a * 10 + digitVal c)

/-! Concrete fixtures used by witnesses and counterexamples. -/

/-- Fixture: an object with no populated field. -/
def objEmpty : Object :=
  { user_id := none, from_id := none, peer_id := none, message := none }

/-- Fixture: an object carrying only top-level addressing fields and no
nested message record. -/
def objFlat : Object :=
  { user_id := none, from_id := some 42, peer_id := some 7, message := none }

/-- Fixture: an object with a nested message record. -/
def objNested : Object :=
  { user_id := none, from_id := none, peer_id := none,
    message := some { from_id := 42, peer_id := some 7 } }

/-- Fixture: an object whose nested message record has no `peer_id`. -/
def objNestedNoPeer : Object :=
  { user_id := none, from_id := none, peer_id := none,
    message := some { from_id := 42, peer_id := none } }

/-- Fixture: an API client handle. -/
def api0 : ApiHandle :=
  { id := 0 }

/-- Fixture: a serializer that always succeeds. -/
def serOk : Keyboard → Except String String :=
  fun _ => Except.ok "kbjson"

/-- Fixture: a serializer that always fails. -/
def serBad : Keyboard → Except String String :=
  fun _ => Except.error "boom"

/-- Fixture: a remote call that always succeeds. -/
def remoteOk : Params → Except Error String :=
  fun _ => Except.ok "1"

/-- Fixture: a context whose response is empty. -/
def ctxEmptyResp : Context :=
  { event := Event.messageNew, object := objNested, api := api0,
    peer_id := 1, response := Response.new }

/-- Fixture: a context holding exactly one attachment. -/
def ctxOneAtt : Context :=
  { event := Event.messageNew, object := objNested, api := api0,
    peer_id := 1,
    response :=
      { message := "", attachments := [ { form := "photo1_1" } ],
        keyboard := none } }

/-- Fixture: a context holding two attachments with forms "A" and "B". -/
def ctxTwoAtt : Context :=
  { event := Event.messageNew, object := objNested, api := api0,
    peer_id := 1,
    response :=
      { message := "", attachments := [ { form := "A" }, { form := "B" } ],
        keyboard := none } }

/-- Fixture: a context holding a keyboard. -/
def ctxKbd : Context :=
  { event := Event.messageNew, object := objNested, api := api0,
    peer_id := 1,
    response :=
      { message := "hi", attachments := [], keyboard := some { id := 3 } } }

/-- Fixture: an environment whose lock succeeds and whose serializer
fails. -/
def envBadSer : SendEnv :=
  { lockResult := Except.ok (), serialize := serBad, randomId := 7,
    remote := remoteOk }

/-- Fixture: an environment whose lock is poisoned. -/
def envBadLock : SendEnv :=
  { lockResult := Except.error "poisoned lock", serialize := serOk,
    randomId := 7, remote := remoteOk }

/-- Fixture: an environment where everything succeeds. -/
def envOk : SendEnv :=
  { lockResult := Except.ok (), serialize := serOk, randomId := 7,
    remote := remoteOk }

/-- The addressing field required by an event kind is absent from the
object: `user_id` for `MessageAllow`, the nested message record for
`MessageTypingState`, and for every other kind the nested record's
`peer_id` (or the record itself). -/
def requiredFieldMissing : Event → Object → Bool
  | Event.messageAllow, o => o.user_id.isNone
  | Event.messageTypingState, o => o.message.isNone
  | _, o =>
      match o.message with
      | none => true
      | some m => m.peer_id.isNone

/-- Replace every `peer_id` field of an object (the top-level one and
the nested message record's one). -/
def Object.setPeerFields (o : Object) (p q : Option Int) : Object :=
  { o with peer_id := p,
           message := o.message.map (fun m => { m with peer_id := q }) }

/-! Helper lemmas. -/

theorem params_get?_insert_self (p : Params) (k v : String) :
    Params.get? (Params.insert p k v) k = some v := by
  rw [Params.insert, Params.get?, if_pos rfl]

theorem params_get?_erase_ne (p : Params) (k k2 : String) (h : k ≠ k2) :
    Params.get? (Params.erase p k) k2 = Params.get? p k2 := by
  induction p with
  | nil => rfl
  | cons kv rest ih =>
      obtain ⟨ka, va⟩ := kv
      by_cases hk : ka = k
      · have hk2 : ¬ ka = k2 := by rw [hk]; exact h
        calc Params.get? (Params.erase ((ka, va) :: rest) k) k2
            = Params.get? (Params.erase rest k) k2 := by
              rw [Params.erase, if_pos hk]
          _ = Params.get? rest k2 := ih
          _ = Params.get? ((ka, va) :: rest) k2 := by
              rw [Params.get?, if_neg hk2]
      · calc Params.get? (Params.erase ((ka, va) :: rest) k) k2
            = Params.get? ((ka, va) :: Params.erase rest k) k2 := by
              rw [Params.erase, if_neg hk]
          _ = Params.get? ((ka, va) :: rest) k2 := by
              rw [Params.get?, Params.get?, ih]

theorem params_get?_insert_ne (p : Params) (k v k2 : String) (h : k ≠ k2) :
    Params.get? (Params.insert p k v) k2 = Params.get? p k2 := by
  rw [Params.insert, Params.get?, if_neg h, params_get?_erase_ne p k k2 h]

theorem toDigitsCore_eq_decDigits (fuel n : Nat) (ds : List Char)
    (h : n < fuel) :
    Nat.toDigitsCore 10 fuel n ds = decDigits n ++ ds := by
  induction fuel generalizing n ds with
  | zero => omega
  | succ f ih =>
      rw [decDigits]
      by_cases h10 : n / 10 = 0
      · simp only [Nat.toDigitsCore, h10, if_true, dif_pos h10]
        rfl
      · simp only [Nat.toDigitsCore, h10, if_false, dif_neg h10]
        rw [ih (n / 10) _ (by omega)]
        simp

theorem natRepr_eq_decDigits (n : Nat) :
    Nat.repr n = (decDigits n).asString := by
  unfold Nat.repr Nat.toDigits
  rw [toDigitsCore_eq_decDigits (n + 1) n [] (Nat.lt_succ_self n)]
  simp

theorem decVal_append (xs : List Char) (c : Char) (a : Nat) :
    decVal (xs ++ [c]) a = (decVal xs a) * 10 + digitVal c := by
  induction xs generalizing a with
  | nil => rfl
  | cons x xs ih => simp [decVal, ih]

theorem digitVal_digitChar (d : Nat) (h : d < 10) :
    digitVal (Nat.digitChar d) = d := by
  interval_cases d <;> decide

theorem decVal_decDigits (n : Nat) :
    ∀ a, decVal (decDigits n) a = a * 10 ^ (decDigits n).length + n := by
  induction n using Nat.strong_induction_on with
  | _ n ih =>
      intro a
      rw [decDigits]
      by_cases h10 : n / 10 = 0
      · rw [dif_pos h10]
        have hn : n < 10 := by omega
        simp [decVal, digitVal_digitChar n hn, Nat.mod_eq_of_lt hn]
      · rw [dif_neg h10]
        rw [decVal_append, ih (n / 10) (by omega) a,
          digitVal_digitChar (n % 10) (by omega)]
        have hL : (decDigits (n / 10) ++ [Nat.digitChar (n % 10)]).length
            = (decDigits (n / 10)).length + 1 := by simp
        rw [hL, pow_succ, ← mul_assoc]
        omega

theorem decDigits_inj (m n : Nat) (h : decDigits m = decDigits n) : m = n := by
  have hm := decVal_decDigits m 0
  have hn := decVal_decDigits n 0
  rw [h] at hm
  rw [hn] at hm
  simpa using hm.symm

theorem natRepr_inj (m n : Nat) (h : Nat.repr m = Nat.repr n) : m = n := by
  rw [natRepr_eq_decDigits, natRepr_eq_decDigits] at h
  exact decDigits_inj m n (List.asString_inj.mp h)

theorem digitChar_ne_dash (d : Nat) (h : d < 10) : Nat.digitChar d ≠ '-' := by
  interval_cases d <;> decide

theorem decDigits_ne_dash (n : Nat) : ∀ c ∈ decDigits n, c ≠ '-' := by
  induction n using Nat.strong_induction_on with
  | _ n ih =>
      rw [decDigits]
      by_cases h10 : n / 10 = 0
      · rw [dif_pos h10]
        intro c hc
        simp at hc
        subst hc
        exact digitChar_ne_dash (n % 10) (by omega)
      · rw [dif_neg h10]
        intro c hc
        rcases List.mem_append.mp hc with h1 | h2
        · exact ih (n / 10) (by omega) c h1
        · simp at h2
          subst h2
          exact digitChar_ne_dash (n % 10) (by omega)

theorem natRepr_data (n : Nat) : (Nat.repr n).data = decDigits n := by
  rw [natRepr_eq_decDigits]
  exact List.toList_asString (decDigits n)

theorem intToString_inj (m n : Int) (h : toString m = toString n) : m = n := by
  cases m with
  | ofNat a =>
      cases n with
      | ofNat b =>
          have ha : toString (Int.ofNat a) = Nat.repr a := rfl
          have hb : toString (Int.ofNat b) = Nat.repr b := rfl
          rw [ha, hb] at h
          exact congrArg Int.ofNat (natRepr_inj a b h)
      | negSucc b =>
          have hd := congrArg String.data h
          have ha : (toString (Int.ofNat a)).data = decDigits a :=
            natRepr_data a
          have hb : (toString (Int.negSucc b)).data
              = '-' :: (Nat.repr (b + 1)).data := rfl
          rw [ha, hb] at hd
          have hmem : '-' ∈ decDigits a := by
            rw [hd]
            exact List.mem_cons_self '-' _
          exact absurd rfl (decDigits_ne_dash a '-' hmem)
  | negSucc a =>
      cases n with
      | ofNat b =>
          have hd := congrArg String.data h
          have ha : (toString (Int.negSucc a)).data
              = '-' :: (Nat.repr (a + 1)).data := rfl
          have hb : (toString (Int.ofNat b)).data = decDigits b :=
            natRepr_data b
          rw [ha, hb] at hd
          have hmem : '-' ∈ decDigits b := by
            rw [← hd]
            exact List.mem_cons_self '-' _
          exact absurd rfl (decDigits_ne_dash b '-' hmem)
      | negSucc b =>
          have hd := congrArg String.data h
          have ha : (toString (Int.negSucc a)).data
              = '-' :: (Nat.repr (a + 1)).data := rfl
          have hb : (toString (Int.negSucc b)).data
              = '-' :: (Nat.repr (b + 1)).data := rfl
          rw [ha, hb] at hd
          have ht : (Nat.repr (a + 1)).data = (Nat.repr (b + 1)).data :=
            (List.cons.injEq _ _ _ _ ▸ hd).2
          have hr : Nat.repr (a + 1) = Nat.repr (b + 1) :=
            String.toList_inj.mp ht
          have hab := natRepr_inj (a + 1) (b + 1) hr
          exact congrArg Int.negSucc (by omega)

theorem buildParams_get? (ctx : Context)
    (ser : Keyboard → Except String String) (rid : Int) (p : Params)
    (h : ctx.buildParams ser rid = PanicOr.ok p) :
    Params.get? p "peer_id" = some (toString ctx.peer_id) ∧
    Params.get? p "random_id" = some (toString rid) ∧
    Params.get? p "message" =
      (if ctx.response.message.isEmpty then none
       else some ctx.response.message) ∧
    Params.get? p "attachment" =
      (if ctx.response.attachments.isEmpty then none
       else some (attachmentFold ctx.response.attachments)) ∧
    Params.get? p "keyboard" =
      (match ctx.response.keyboard with
       | none => none
       | some k => (ser k).toOption) := by
  simp only [Context.buildParams] at h
  rcases hk : ctx.response.keyboard with _ | k <;>
    rw [hk] at h <;>
    simp only [] at h
  · injection h with h2
    subst h2
    by_cases hm : ctx.response.message.isEmpty <;>
      by_cases ha : ctx.response.attachments.isEmpty <;>
        simp [hm, ha, Params.insert, Params.erase, Params.get?, Params.empty]
  · rcases hs : ser k with e | str <;> rw [hs] at h
    · exact absurd h (by simp)
    · injection h with h2
      subst h2
      by_cases hm : ctx.response.message.isEmpty <;>
        by_cases ha : ctx.response.attachments.isEmpty <;>
          simp [hm, ha, hs, Params.insert, Params.erase, Params.get?,
            Params.empty, Except.toOption]

/-! Claim theorems. -/

/-- C7: `send` leaves the context's state unchanged: in the
state-passing form of the method the post-state equals the original
context (response text, attachments, keyboard, event, object, api and
peer_id all preserved), the result is that of `send`, and a repeated
send builds the same parameter set from the same accumulated state. -/
theorem send_frame_preserves_context (ctx : Context) (env : SendEnv) :
    (ctx.sendSt env).2 = ctx ∧ (ctx.sendSt env).1 = ctx.send env ∧
    ((ctx.sendSt env).2).buildParams env.serialize env.randomId
      = ctx.buildParams env.serialize env.randomId := by
  obtain ⟨e, o, a, pid, r⟩ := ctx
  obtain ⟨m, att, k⟩ := r
  exact ⟨rfl, rfl, rfl⟩

/-- C8: a lock-acquisition failure makes `send` return the recoverable
error `Error.Other` carrying the lock-failure description — it is not a
panic, and no retry happens (the call ends right there with that
error). -/
theorem send_lock_failure_returns_error (ctx : Context) (env : SendEnv)
    (msg : String) (h : env.lockResult = Except.error msg) :
    ctx.send env = SendResult.err (Error.Other msg) := by
  simp [Context.send, h]

/-- Witness for C8 at a concrete context and a poisoned-lock
environment. -/
theorem send_lock_failure_returns_error_witness :
    envBadLock.lockResult = Except.error "poisoned lock" ∧
    ctxEmptyResp.send envBadLock
      = SendResult.err (Error.Other "poisoned lock") :=
  ⟨rfl,
    send_lock_failure_returns_error ctxEmptyResp envBadLock
      "poisoned lock" rfl⟩

/-- C9: with the lock acquired and the parameters built, `send` returns
the remote call's outcome to its caller: on success the payload is
discarded and `send` yields unit success; on failure the remote error
is propagated unchanged. -/
theorem send_returns_remote_outcome (ctx : Context) (env : SendEnv)
    (p : Params) (hl : env.lockResult = Except.ok ())
    (hp : ctx.buildParams env.serialize env.randomId = PanicOr.ok p) :
    (∀ s, env.remote p = Except.ok s → ctx.send env = SendResult.ok) ∧
    (∀ e, env.remote p = Except.error e →
      ctx.send env = SendResult.err e) := by
  constructor
  · intro s hs
    simp [Context.send, hl, hp, hs]
  · intro e he
    simp [Context.send, hl, hp, he]

/-- Witness for C9 at a concrete context, environment and parameter
set. -/
theorem send_returns_remote_outcome_witness :
    envOk.lockResult = Except.ok () ∧
    ctxEmptyResp.buildParams envOk.serialize envOk.randomId
      = PanicOr.ok ([ ( "random_id", "7" ), ( "peer_id", "1" ) ] : Params) ∧
    ctxEmptyResp.send envOk = SendResult.ok :=
  ⟨rfl, by decide,
    (send_returns_remote_outcome ctxEmptyResp envOk
      ([ ( "random_id", "7" ), ( "peer_id", "1" ) ] : Params) rfl
      (by decide)).1 "1" rfl⟩

/-- C5: with an empty message text, an empty attachment list and no
keyboard, the parameter set that `send` submits still contains
`peer_id` and `random_id`, and omits the `message`, `attachment` and
`keyboard` keys entirely. -/
theorem send_empty_response_params (ctx : Context)
    (ser : Keyboard → Except String String) (rid : Int)
    (hm : ctx.response.message = "") (ha : ctx.response.attachments = [])
    (hk : ctx.response.keyboard = none) :
    ∃ p, ctx.buildParams ser rid = PanicOr.ok p ∧
      Params.get? p "peer_id" = some (toString ctx.peer_id) ∧
      Params.get? p "random_id" = some (toString rid) ∧
      Params.get? p "message" = none ∧
      Params.get? p "attachment" = none ∧
      Params.get? p "keyboard" = none := by
  have h : ctx.buildParams ser rid
      = PanicOr.ok (Params.insert
          (Params.insert Params.empty "peer_id" (toString ctx.peer_id))
          "random_id" (toString rid)) := by
    simp [Context.buildParams, hm, ha, hk,
      show ("" : String).isEmpty = true from rfl]
  exact ⟨_, h, by simp [Params.insert, Params.erase, Params.get?,
    Params.empty]⟩

/-- Witness for C5 at a concrete context with an empty response. -/
theorem send_empty_response_params_witness :
    ctxEmptyResp.response.message = "" ∧
    ctxEmptyResp.response.attachments = [] ∧
    ctxEmptyResp.response.keyboard = none ∧
    (∃ p, ctxEmptyResp.buildParams serOk 5 = PanicOr.ok p ∧
      Params.get? p "peer_id" = some (toString ctxEmptyResp.peer_id) ∧
      Params.get? p "random_id" = some (toString (5 : Int)) ∧
      Params.get? p "message" = none ∧
      Params.get? p "attachment" = none ∧
      Params.get? p "keyboard" = none) :=
  ⟨rfl, rfl, rfl, send_empty_response_params ctxEmptyResp serOk 5 rfl rfl rfl⟩

/-- C1: evaluation of the source's attachment join at the claim's
inputs.  The join is the fold `acc + "," + v` starting from the empty
string, so a single attachment with string form "photo1_1" yields the
parameter ",photo1_1" (with a leading comma, not "photo1_1"), and two
attachments with forms "A" and "B" yield ",A,B" (not "A,B"). -/
theorem attachment_param_has_leading_comma :
    (ctxOneAtt.buildParams serOk 0).map
        (fun p => Params.get? p "attachment")
      = PanicOr.ok (some ",photo1_1") ∧
    (ctxTwoAtt.buildParams serOk 0).map
        (fun p => Params.get? p "attachment")
      = PanicOr.ok (some ",A,B") ∧
    attachmentFold [ { form := "photo1_1" } ] = ",photo1_1" ∧
    attachmentFold [ { form := "A" }, { form := "B" } ] = ",A,B" := by
  refine ⟨?_, ?_, rfl, rfl⟩ <;> decide

/-- Counterexample for C2: constructing a `MessageAllow` context from
an object with no `user_id` does not yield a recoverable error value —
it panics (aborting the request) with the `expect` message. -/
theorem new_missing_user_id_panics_cex :
    Context.new Event.messageAllow objEmpty api0
      = PanicOr.panic "no user_id on message_allow object" ∧
    ∀ c, Context.new Event.messageAllow objEmpty api0 ≠ PanicOr.ok c := by
  have hq : Context.new Event.messageAllow objEmpty api0
      = PanicOr.panic "no user_id on message_allow object" := by decide
  exact ⟨hq, fun c h => by rw [hq] at h; exact PanicOr.noConfusion h⟩

/-- C2 (amended): for every event kind, if the addressing field
required by that kind is missing from the object, construction panics
with a descriptive message — so the single request fails and no
successful `Context` is ever produced — instead of returning a
recoverable error value. -/
theorem new_missing_field_panics (e : Event) (o : Object) (a : ApiHandle)
    (h : requiredFieldMissing e o = true) :
    ∃ msg, Context.new e o a = PanicOr.panic msg := by
  cases e with
  | messageAllow =>
      rw [requiredFieldMissing, Option.isNone_iff_eq_none] at h
      exact ⟨ "no user_id on message_allow object",
        by simp [Context.new, h, expectP, PanicOr.map]⟩
  | messageTypingState =>
      rw [requiredFieldMissing, Option.isNone_iff_eq_none] at h
      exact ⟨ "no message on message_typing_state object",
        by simp [Context.new, h, expectP, PanicOr.map]⟩
  | messageNew | messageReply | messageEdit | messageDeny =>
      rcases hm : o.message with _ | m
      · exact ⟨ "no message on object",
          by simp [Context.new, hm, expectP, PanicOr.bind, PanicOr.map]⟩
      · simp only [requiredFieldMissing, hm,
          Option.isNone_iff_eq_none] at h
        exact ⟨ "no peer_id on object",
          by simp [Context.new, hm, h, expectP, PanicOr.bind,
            PanicOr.map]⟩

/-- Witness for C2 (amended) at a concrete event and object. -/
theorem new_missing_field_panics_witness :
    requiredFieldMissing Event.messageNew objFlat = true ∧
    (∃ msg, Context.new Event.messageNew objFlat api0
      = PanicOr.panic msg) :=
  ⟨by decide,
    new_missing_field_panics Event.messageNew objFlat api0 (by decide)⟩

/-- Counterexample for C3: with a keyboard present and a serializer
that fails, `send` panics (process abort via `expect`) instead of
returning an error value to the caller. -/
theorem send_keyboard_ser_failure_cex :
    ctxKbd.send envBadSer
      = SendResult.panic "failed to serialize keyboard" ∧
    ∀ e, ctxKbd.send envBadSer ≠ SendResult.err e := by
  have hq : ctxKbd.send envBadSer
      = SendResult.panic "failed to serialize keyboard" := by decide
  exact ⟨hq, fun e h => by rw [hq] at h; exact SendResult.noConfusion h⟩

/-- C3 (amended): if serializing the keyboard fails, `send` panics with
the message "failed to serialize keyboard" (a process abort via
`expect`) rather than surfacing the failure as a returned error. -/
theorem send_keyboard_ser_failure_panics (ctx : Context) (env : SendEnv)
    (k : Keyboard) (m : String) (hl : env.lockResult = Except.ok ())
    (hk : ctx.response.keyboard = some k)
    (hs : env.serialize k = Except.error m) :
    ctx.send env = SendResult.panic "failed to serialize keyboard" := by
  simp [Context.send, Context.buildParams, hl, hk, hs]

/-- Witness for C3 (amended) at a concrete context and environment. -/
theorem send_keyboard_ser_failure_panics_witness :
    envBadSer.lockResult = Except.ok () ∧
    ctxKbd.response.keyboard = some { id := 3 } ∧
    envBadSer.serialize { id := 3 } = Except.error "boom" ∧
    ctxKbd.send envBadSer
      = SendResult.panic "failed to serialize keyboard" :=
  ⟨rfl, rfl, rfl,
    send_keyboard_ser_failure_panics ctxKbd envBadSer { id := 3 } "boom"
      rfl rfl rfl⟩

/-- Counterexample for C4: an object carrying a top-level `from_id`
(42) and a top-level `peer_id` (7) but no nested message record.  The
claim predicts successful extraction from the top-level fields (42 for
a typing event, 7 for an ordinary event); the code panics in both
cases, because it reads only the nested message record. -/
theorem peer_id_no_flat_fallback_cex :
    objFlat.from_id = some 42 ∧ objFlat.peer_id = some 7 ∧
    Context.new Event.messageTypingState objFlat api0
      = PanicOr.panic "no message on message_typing_state object" ∧
    Context.new Event.messageNew objFlat api0
      = PanicOr.panic "no message on object" := by
  decide

/-- C4 (amended): peer-id derivation by event kind reads exactly these
fields: `MessageAllow` takes the object's `user_id`;
`MessageTypingState` takes the nested message record's `from_id`; every
other event takes the nested message record's `peer_id`; and the
object's top-level `from_id` and `peer_id` fields are never consulted
for any event kind. -/
theorem peer_id_extraction (o : Object) (a : ApiHandle) :
    (∀ u, o.user_id = some u →
      Context.new Event.messageAllow o a = PanicOr.ok
        { event := Event.messageAllow, object := o, api := a,
          peer_id := u, response := Response.new }) ∧
    (∀ m, o.message = some m →
      Context.new Event.messageTypingState o a = PanicOr.ok
        { event := Event.messageTypingState, object := o, api := a,
          peer_id := m.from_id, response := Response.new }) ∧
    (∀ e, e ≠ Event.messageAllow → e ≠ Event.messageTypingState →
      ∀ m pid, o.message = some m → m.peer_id = some pid →
        Context.new e o a = PanicOr.ok
          { event := e, object := o, api := a, peer_id := pid,
            response := Response.new }) ∧
    (∀ e f p,
      (Context.new e { o with from_id := f, peer_id := p } a).map
          (fun c => c.peer_id)
        = (Context.new e o a).map (fun c => c.peer_id)) := by
  refine ⟨?_, ?_, ?_, ?_⟩
  · intro u hu
    simp [Context.new, hu, expectP, PanicOr.map]
  · intro m hm
    simp [Context.new, hm, expectP, PanicOr.map]
  · intro e he ht m pid hm hp
    cases e
    case messageAllow => exact absurd rfl he
    case messageTypingState => exact absurd rfl ht
    all_goals simp [Context.new, hm, hp, expectP, PanicOr.bind,
      PanicOr.map]
  · intro e f p
    cases e <;> rcases hm : o.message with _ | m <;>
      rcases hu : o.user_id with _ | u <;>
        try rcases hp : m.peer_id with _ | pid
    all_goals simp_all [Context.new, expectP, PanicOr.bind, PanicOr.map]

/-- Witness for C4 (amended): a typing-state event over a nested
payload extracts the nested record's sender id. -/
theorem peer_id_extraction_witness :
    objNested.message = some { from_id := 42, peer_id := some 7 } ∧
    Context.new Event.messageTypingState objNested api0 = PanicOr.ok
      { event := Event.messageTypingState, object := objNested,
        api := api0, peer_id := 42, response := Response.new } :=
  ⟨rfl,
    (peer_id_extraction objNested api0).2.1
      { from_id := 42, peer_id := some 7 } rfl⟩

/-- C6: two `send` invocations on one unchanged context build
parameter sets with identical `message`, `attachment` and `keyboard`
entries, and the two freshly drawn random integers yield distinct
`random_id` entries whenever the draws differ. -/
theorem send_twice_same_params_distinct_random_id (ctx : Context)
    (ser : Keyboard → Except String String) (r1 r2 : Int)
    (p1 p2 : Params)
    (h1 : ctx.buildParams ser r1 = PanicOr.ok p1)
    (h2 : ctx.buildParams ser r2 = PanicOr.ok p2)
    (hr : r1 ≠ r2) :
    Params.get? p1 "message" = Params.get? p2 "message" ∧
    Params.get? p1 "attachment" = Params.get? p2 "attachment" ∧
    Params.get? p1 "keyboard" = Params.get? p2 "keyboard" ∧
    Params.get? p1 "random_id" ≠ Params.get? p2 "random_id" := by
  obtain ⟨-, hr1, hm1, ha1, hk1⟩ := buildParams_get? ctx ser r1 p1 h1
  obtain ⟨-, hr2, hm2, ha2, hk2⟩ := buildParams_get? ctx ser r2 p2 h2
  refine ⟨by rw [hm1, hm2], by rw [ha1, ha2], by rw [hk1, hk2], ?_⟩
  rw [hr1, hr2]
  intro hc
  injection hc with hc2
  exact hr (intToString_inj r1 r2 hc2)

/-- Witness for C6 at a concrete context and two distinct random
draws. -/
theorem send_twice_same_params_distinct_random_id_witness :
    ctxEmptyResp.buildParams serOk 5
      = PanicOr.ok ([ ( "random_id", "5" ), ( "peer_id", "1" ) ] : Params) ∧
    ctxEmptyResp.buildParams serOk 6
      = PanicOr.ok ([ ( "random_id", "6" ), ( "peer_id", "1" ) ] : Params) ∧
    (5 : Int) ≠ 6 ∧
    (Params.get? ([ ( "random_id", "5" ), ( "peer_id", "1" ) ] : Params)
        "message"
      = Params.get? ([ ( "random_id", "6" ), ( "peer_id", "1" ) ] : Params)
        "message" ∧
    Params.get? ([ ( "random_id", "5" ), ( "peer_id", "1" ) ] : Params)
        "attachment"
      = Params.get? ([ ( "random_id", "6" ), ( "peer_id", "1" ) ] : Params)
        "attachment" ∧
    Params.get? ([ ( "random_id", "5" ), ( "peer_id", "1" ) ] : Params)
        "keyboard"
      = Params.get? ([ ( "random_id", "6" ), ( "peer_id", "1" ) ] : Params)
        "keyboard" ∧
    Params.get? ([ ( "random_id", "5" ), ( "peer_id", "1" ) ] : Params)
        "random_id"
      ≠ Params.get? ([ ( "random_id", "6" ), ( "peer_id", "1" ) ] : Params)
        "random_id") :=
  ⟨by decide, by decide, by decide,
    send_twice_same_params_distinct_random_id ctxEmptyResp serOk 5 6
      ([ ( "random_id", "5" ), ( "peer_id", "1" ) ] : Params)
      ([ ( "random_id", "6" ), ( "peer_id", "1" ) ] : Params)
      (by decide) (by decide) (by decide)⟩

/-- C10: for a `MessageTypingState` event, construction inspects no
`peer_id` field: replacing every `peer_id` field (top-level and the
nested record's) leaves the derived peer id unchanged; construction
succeeds with the nested record's `from_id` whenever the record is
present (even when that record has no `peer_id`), and its only failure
is the absence of the nested record itself. -/
theorem typing_state_ignores_peer_id_fields (o : Object) (a : ApiHandle) :
    (∀ p q,
      (Context.new Event.messageTypingState (o.setPeerFields p q) a).map
          (fun c => c.peer_id)
        = (Context.new Event.messageTypingState o a).map
          (fun c => c.peer_id)) ∧
    (∀ m, o.message = some m →
      Context.new Event.messageTypingState o a = PanicOr.ok
        { event := Event.messageTypingState, object := o, api := a,
          peer_id := m.from_id, response := Response.new }) ∧
    (o.message = none →
      Context.new Event.messageTypingState o a
        = PanicOr.panic "no message on message_typing_state object") := by
  refine ⟨?_, ?_, ?_⟩
  · intro p q
    rcases hm : o.message with _ | m <;>
      simp [Context.new, Object.setPeerFields, hm, expectP, PanicOr.map]
  · intro m hm
    simp [Context.new, hm, expectP, PanicOr.map]
  · intro hm
    simp [Context.new, hm, expectP, PanicOr.map]

/-- Witness for C10: a typing-state event over a nested record lacking
`peer_id` still succeeds, extracting the record's `from_id`. -/
theorem typing_state_ignores_peer_id_fields_witness :
    objNestedNoPeer.message = some { from_id := 42, peer_id := none } ∧
    Context.new Event.messageTypingState objNestedNoPeer api0 = PanicOr.ok
      { event := Event.messageTypingState, object := objNestedNoPeer,
        api := api0, peer_id := 42, response := Response.new } :=
  ⟨rfl,
    (typing_state_ignores_peer_id_fields objNestedNoPeer api0).2.1
      { from_id := 42, peer_id := none } rfl⟩

end VkBot
